import Mathlib

/-!
Verification development for the `ind_project` educational AI bot
(`src/main.py` and `src/data_process.py`).

The Python source is shallowly embedded: pure functions (`build_prompt`,
`make_token`, the Ollama-client result classification) become Lean
functions; the in-memory pending-rating dictionary and the CSV ledger
become explicit state threaded through the handlers; the chat-platform
SDK and the HTTP layer are abstracted into explicit environment records
that say which external call succeeded, raised, or returned what.
Machine integers in the source (chat ids, message ids, ratings) are
unbounded Python ints and are embedded as `Int`.
-/

/-! ## String helpers mirroring the Python string primitives -/

/-- The whitespace characters stripped by Python's `str.strip()`,
restricted to the ASCII whitespace subset (the Unicode whitespace
class is modelled by its ASCII members). -/
def isPySpace (c : Char) : Bool :=
  c = ' ' ∨ c = '\t' ∨ c = '\n' ∨ c = '\r' ∨ c = '\x0b' ∨ c = '\x0c'

/-- Python `s.strip()`: drop leading and trailing whitespace. -/
def pyStrip (s : String) : String :=
  String.mk (((s.data.dropWhile isPySpace).reverse.dropWhile isPySpace).reverse)

/-- Splitting a character list at every occurrence of the separator
character, as Python `str.split(sep)` does for a one-character
separator. -/
def splitCharsOnPipe : List Char → List (List Char)
  | [] => [[]]
  | c :: rest =>
    let r := splitCharsOnPipe rest
    if c = '|' then [] :: r
    else
      match r with
      | [] => [[c]]
      | h :: t => (c :: h) :: t

/-- Python `s.split("|")` (used on the rating-callback payload). -/
def pySplitPipe (s : String) : List String :=
  (splitCharsOnPipe s.data).map String.mk

/-- Python `int(s)` on a non-negative decimal digit string (the only
shape it is applied to in the source: a validated rating digit). -/
def pyIntDigits : List Char → Nat → Nat
  | [], acc => acc
  | c :: rest, acc => pyIntDigits rest (acc * 10 + (c.toNat - 48))

/-- Python `int(s)` for the validated rating strings. -/
def pyInt (s : String) : Int :=
  Int.ofNat (pyIntDigits s.data 0)

/-! ## Configuration constants (`src/main.py` lines 40-52, default values) -/

def TEXT_MODEL : String := "qwen2.5:7b"

def VISION_MODEL : String := "llava:7b"

/-- `SYSTEM_HINT` (`src/main.py` lines 48-52), the adjacent string
literals joined. -/
def SYSTEM_HINT : String :=
  "Ты — помощник для учебных задач. Отвечай кратко и по делу. Если данных недостаточно — задай 1 уточняющий вопрос."

/-! ## Token minting (`src/main.py` lines 168-169) -/

/-- `make_token(chat_id, message_id)`: the f-string `"{chat_id}:{message_id}"`. -/
def make_token (chat_id : Int) (message_id : Int) : String :=
  toString chat_id ++ ":" ++ toString message_id

/-! ## Prompt builder (`src/main.py` lines 128-153) -/

/-- `build_prompt(user_text, mode)`.  `user_text or ""` is
`user_text.getD ""`; Python truthiness of a string is `≠ ""`;
the adjacent f-string pieces of the source are joined into single
literals. -/
def build_prompt (user_text : Option String) (mode : String) : String :=
  if mode = "text" then
    let text := pyStrip (user_text.getD "")
    if text ≠ "" then
      SYSTEM_HINT ++ "\n\nЗапрос пользователя:\n" ++ text
    else
      SYSTEM_HINT ++ "\n\nПользователь ничего не написал. Попроси уточнить задачу."
  else
    let caption := pyStrip (user_text.getD "")
    if caption ≠ "" then
      SYSTEM_HINT ++ "\n\nПользователь прислал изображение и подпись:\n" ++ caption
        ++ "\n\nСначала кратко опиши, что видишь на изображении, потом реши/объясни по запросу из подписи."
    else
      SYSTEM_HINT ++ "\n\nПользователь прислал изображение без подписи. 1) Опиши, что на изображении. 2) Предложи, какую учебную пользу можно из этого извлечь."

/-! ## Ollama client (`src/main.py` lines 86-126) -/

/-- The single exception class `OllamaError` of `src/main.py` line 86.
`msg` is the exception message; `cause` is the `__cause__` attribute set
by `raise ... from e` on the transport path (line 114) and absent on the
HTTP-status path (line 122). -/
structure OllamaError where
  msg : String
  cause : Option String
deriving DecidableEq, Repr

/-- An HTTP response from the inference endpoint as `ollama_generate`
observes it: the status code, the rendering of `r.json()` when the body
parses as JSON, the raw body text `r.text`, and — for the success path,
where the external contract guarantees a JSON body — the optional
`"response"` field `data.get("response")`. -/
structure HttpResponse where
  status : Nat
  jsonBody : Option String
  text : String
  responseField : Option String
deriving DecidableEq, Repr

/-- Outcome of the `requests.post` call in `ollama_generate`: either the
request raised `requests.RequestException` (connection error, timeout)
with the given cause, or a response came back. -/
inductive HttpResult where
  | transportError (cause : String)
  | response (r : HttpResponse)
deriving DecidableEq, Repr

/-- `ollama_generate` (`src/main.py` lines 89-126) as a function of the
HTTP outcome.  Transport failure raises
`OllamaError("Ollama request failed: {e}") from e`; a non-200 status
raises `OllamaError("Ollama HTTP {status}: {err}")` where `err` is
`r.json()` if the body parses, else `r.text`; on 200 it returns
`(data.get("response") or "").strip()`. -/
def ollama_generate (res : HttpResult) : Except OllamaError String :=
  match res with
  | HttpResult.transportError cause =>
      Except.error { msg := "Ollama request failed: " ++ cause, cause := some cause }
  | HttpResult.response r =>
      if r.status ≠ 200 then
        Except.error
          { msg := "Ollama HTTP " ++ toString r.status ++ ": " ++ r.jsonBody.getD r.text,
            cause := none }
      else
        Except.ok (pyStrip (r.responseField.getD ""))

/-- The two failure kinds of the spec's error taxonomy (§7). -/
inductive FailureKind where
  | backendUnavailable
  | backendError
deriving DecidableEq, Repr

/-- Classify a raised `OllamaError` from the error value alone: the
transport path is the one that carries an underlying cause
(`raise ... from e`). -/
def classifyFailure (e : OllamaError) : FailureKind :=
  match e.cause with
  | some _ => FailureKind.backendUnavailable
  | none => FailureKind.backendError

/-! ## Interaction records and the pending-rating tracker
(`src/main.py` lines 171-197, 288-322) -/

/-- One interaction record: the dictionary stored under a token in
`send_answer_with_rating` (lines 182-192) and, with the `rating` key
added, the row appended to the CSV ledger (line 311).  The optional
`rating` field models presence/absence of the `"rating"` dictionary
key. -/
structure InteractionRecord where
  timestamp_utc : String
  user_id : Option Int
  chat_id : Int
  message_id : Int
  input_type : String
  user_text : String
  text_model : String
  vision_model : String
  ai_answer : String
  rating : Option Int
deriving DecidableEq, Repr

/-- The in-memory pending dictionary `bot_data["pending"]`, embedded as
an association list with Python-dict semantics (unique keys, assignment
replaces in place, `del` removes). -/
abbrev Pending := List (String × InteractionRecord)

/-- Dictionary lookup `m.get(k)`. -/
def dictGet (m : Pending) (k : String) : Option InteractionRecord :=
  match m with
  | [] => none
  | (k', v) :: rest => if k' = k then some v else dictGet rest k

/-- Dictionary assignment `m[k] = v`: replace the binding in place if
the key is present, else append it. -/
def dictSet (m : Pending) (k : String) (v : InteractionRecord) : Pending :=
  match m with
  | [] => [(k, v)]
  | (k', v') :: rest => if k' = k then (k, v) :: rest else (k', v') :: dictSet rest k v

/-- Dictionary deletion `del m[k]`. -/
def dictDel (m : Pending) (k : String) : Pending :=
  match m with
  | [] => []
  | (k', v') :: rest => if k' = k then dictDel rest k else (k', v') :: dictDel rest k

/-- The `take` operation of spec §4.3 as `handle_rating` realises it:
the `pending.get(token)` at line 304 followed, when a record is found,
by the `del pending[token]` at line 314. -/
def take (m : Pending) (token : String) : Option InteractionRecord × Pending :=
  match dictGet m token with
  | none => (none, m)
  | some r => (some r, dictDel m token)

/-- The shared mutable state the handlers touch: the pending-rating
tracker and the CSV ledger (viewed as its list of data rows). -/
structure BotState where
  pending : Pending
  ledger : List InteractionRecord
deriving DecidableEq, Repr

/-- `send_answer_with_rating` (lines 171-197), restricted to its state
effect: mint the token from the sent reply's chat and message ids and
store the record — with no rating — in the pending tracker.  `now` is
`datetime.now(timezone.utc).isoformat()`, `user_id` is
`update.effective_user.id` (or `None`). -/
def send_answer_with_rating (now : String) (user_id : Option Int)
    (sent_chat_id sent_message_id : Int)
    (input_type user_text ai_answer : String) (s : BotState) : BotState × String :=
  let token := make_token sent_chat_id sent_message_id
  ({ s with
      pending := dictSet s.pending token
        { timestamp_utc := now
          user_id := user_id
          chat_id := sent_chat_id
          message_id := sent_message_id
          input_type := input_type
          user_text := user_text
          text_model := TEXT_MODEL
          vision_model := VISION_MODEL
          ai_answer := ai_answer
          rating := none } },
   token)

/-- The observable outcome of one `handle_rating` invocation: which
user-facing message was produced and whether a ledger append happened. -/
inductive RatingOutcome where
  | malformed
  | invalidValue
  | notFound
  | saved (token : String) (rating : Int)
  | appendError (token : String)
deriving DecidableEq, Repr

/-- `handle_rating` (`src/main.py` lines 288-322) as a state
transformer.  `data` is `query.data` (possibly `None`); `appendOk`
says whether `append_csv_row` succeeds or raises (e.g. an I/O error) —
when it raises, the surrounding `except` catches it before the
`del pending[token]` at line 314 runs, so the state is left unchanged. -/
def handle_rating (appendOk : Bool) (data : Option String) (s : BotState) :
    BotState × RatingOutcome :=
  match pySplitPipe (data.getD "") with
  | [p0, token, rating_str] =>
    if p0 ≠ "rate" then (s, RatingOutcome.malformed)
    else if rating_str ∉ ["1", "2", "3", "4", "5"] then (s, RatingOutcome.invalidValue)
    else
      match dictGet s.pending token with
      | none => (s, RatingOutcome.notFound)
      | some record =>
        if appendOk then
          ({ pending := dictDel s.pending token
             ledger := s.ledger ++ [{ record with rating := some (pyInt rating_str) }] },
           RatingOutcome.saved token (pyInt rating_str))
        else (s, RatingOutcome.appendError token)
  | _ => (s, RatingOutcome.malformed)

/-- A rating-callback payload is malformed when it does not split into
exactly three `|`-separated fields with prefix `"rate"`
(`src/main.py` line 294). -/
def malformedCallback (data : Option String) : Bool :=
  match pySplitPipe (data.getD "") with
  | [p0, _, _] => p0 ≠ "rate"
  | _ => true

/-- Does this outcome record a ledger append that consumed token `t`? -/
def savedFor (o : RatingOutcome) (t : String) : Bool :=
  match o with
  | RatingOutcome.saved tok _ => tok = t
  | _ => false

/-- Run a trace of rating callbacks (each with its own append success
flag) and count how many of them appended a ledger row by consuming
token `t`. -/
def runCount : List (Bool × Option String) → BotState → String → Nat
  | [], _, _ => 0
  | (ok, d) :: rest, s, t =>
    (if savedFor (handle_rating ok d s).2 t then 1 else 0)
      + runCount rest (handle_rating ok d s).1 t

/-! ## Handler bodies with exception flow
(`src/main.py` lines 221-246, 248-286, 288-322)

Each handler is embedded as a function of an environment record that
fixes the outcome of every external (chat-platform / HTTP) call the
body makes, in source order.  The result's second component is
`Except String _`: `Except.error m` means an exception with message `m`
propagated out of the handler body; `Except.ok` means the body ran to
completion (possibly having reported an error to the user). -/

/-- Outcome of the `ollama_generate(...)` call as seen inside a
handler's `try` block: a successful answer string, a raised
`OllamaError`, or some other unexpected exception. -/
inductive GenResult where
  | success (answer : String)
  | ollamaErr (e : OllamaError)
  | otherErr (msg : String)
deriving DecidableEq, Repr

/-- What the user ended up receiving from a text/photo handler run. -/
inductive TextReply where
  | answered (answer : String) (token : String)
  | errorReply (text : String)
deriving DecidableEq, Repr

/-- Environment for one `handle_text` invocation.  The `...Exn` fields
are `some m` when the corresponding chat-platform call raises an
exception with message `m`, in source order: `send_action` (line 223,
before the `try`), the `reply_text(ai_answer)` and the rating-keyboard
`reply_text` inside `send_answer_with_rating` (lines 179 and 194, the
tracker insert sits between them), and the `reply_text` performed
inside either `except` block (lines 239 and 246). -/
structure TextEnv where
  messageText : Option String
  sendActionExn : Option String
  ollamaResult : GenResult
  replyAnswerExn : Option String
  replyRatePromptExn : Option String
  replyInExceptExn : Option String
  now : String
  userId : Option Int
  sentChatId : Int
  sentMessageId : Int
deriving DecidableEq, Repr

/-- `handle_text` (`src/main.py` lines 221-246).  Lines 222-225 run
before the `try`, so an exception there propagates; inside the `try`,
`OllamaError` and any other exception are caught and reported — but the
reporting `reply_text` itself is not guarded, so its failure
propagates. -/
def handle_text (env : TextEnv) (s : BotState) : BotState × Except String TextReply :=
  let user_text := env.messageText.getD ""
  match env.sendActionExn with
  | some m => (s, Except.error m)
  | none =>
    let _prompt := build_prompt (some user_text) "text"
    match env.ollamaResult with
    | GenResult.ollamaErr e =>
      match env.replyInExceptExn with
      | some m => (s, Except.error m)
      | none =>
        (s, Except.ok (TextReply.errorReply
          ("Ошибка при обращении к локальной модели (Ollama).\n" ++ e.msg
            ++ "\n\nПроверь, что Ollama запущена и модель скачана.")))
    | GenResult.otherErr msg =>
      match env.replyInExceptExn with
      | some m => (s, Except.error m)
      | none => (s, Except.ok (TextReply.errorReply ("Неожиданная ошибка: " ++ msg)))
    | GenResult.success a =>
      let answer := if a = "" then "Пустой ответ от модели. Попробуй переформулировать вопрос." else a
      match env.replyAnswerExn with
      | some m =>
        match env.replyInExceptExn with
        | some m2 => (s, Except.error m2)
        | none => (s, Except.ok (TextReply.errorReply ("Неожиданная ошибка: " ++ m)))
      | none =>
        let st := send_answer_with_rating env.now env.userId env.sentChatId
          env.sentMessageId "text" user_text answer s
        match env.replyRatePromptExn with
        | some m =>
          match env.replyInExceptExn with
          | some m2 => (st.1, Except.error m2)
          | none => (st.1, Except.ok (TextReply.errorReply ("Неожиданная ошибка: " ++ m)))
        | none => (st.1, Except.ok (TextReply.answered answer st.2))

/-- Environment for one `handle_photo` invocation.  `hasPhoto` is
whether `update.message.photo` is non-empty (`photo[-1]` on line 249,
before the `try`, raises `IndexError` otherwise); `getFileExn` covers
the `get_file`/`download_as_bytearray` calls inside the `try`. -/
structure PhotoEnv where
  hasPhoto : Bool
  caption : Option String
  sendActionExn : Option String
  getFileExn : Option String
  ollamaResult : GenResult
  replyAnswerExn : Option String
  replyRatePromptExn : Option String
  replyInExceptExn : Option String
  now : String
  userId : Option Int
  sentChatId : Int
  sentMessageId : Int
deriving DecidableEq, Repr

/-- `handle_photo` (`src/main.py` lines 248-286).  Lines 249-251 run
before the `try`; inside it, `OllamaError` and any other exception are
caught and reported, the reporting `reply_text` itself unguarded. -/
def handle_photo (env : PhotoEnv) (s : BotState) : BotState × Except String TextReply :=
  if ¬ env.hasPhoto then (s, Except.error "IndexError: list index out of range")
  else
    let caption := env.caption.getD ""
    match env.sendActionExn with
    | some m => (s, Except.error m)
    | none =>
      match env.getFileExn with
      | some m =>
        match env.replyInExceptExn with
        | some m2 => (s, Except.error m2)
        | none => (s, Except.ok (TextReply.errorReply ("Неожиданная ошибка при фото: " ++ m)))
      | none =>
        let _prompt := build_prompt (some caption) "vision"
        match env.ollamaResult with
        | GenResult.ollamaErr e =>
          match env.replyInExceptExn with
          | some m => (s, Except.error m)
          | none =>
            (s, Except.ok (TextReply.errorReply
              ("Ошибка при обработке фото через Ollama.\n" ++ e.msg
                ++ "\n\nПроверь, что vision-модель скачана (например, llava) и Ollama запущена.")))
        | GenResult.otherErr msg =>
          match env.replyInExceptExn with
          | some m => (s, Except.error m)
          | none => (s, Except.ok (TextReply.errorReply ("Неожиданная ошибка при фото: " ++ msg)))
        | GenResult.success a =>
          let answer := if a = "" then "Пустой ответ от vision-модели. Попробуй добавить подпись к фото с задачей." else a
          match env.replyAnswerExn with
          | some m =>
            match env.replyInExceptExn with
            | some m2 => (s, Except.error m2)
            | none => (s, Except.ok (TextReply.errorReply ("Неожиданная ошибка при фото: " ++ m)))
          | none =>
            let st := send_answer_with_rating env.now env.userId env.sentChatId
              env.sentMessageId "photo" caption answer s
            match env.replyRatePromptExn with
            | some m =>
              match env.replyInExceptExn with
              | some m2 => (st.1, Except.error m2)
              | none => (st.1, Except.ok (TextReply.errorReply ("Неожиданная ошибка при фото: " ++ m)))
            | none => (st.1, Except.ok (TextReply.answered answer st.2))

/-- Environment for one `handle_rating` invocation as an event:
`answerExn` is the `query.answer()` call on line 290, before the `try`;
`editExn` makes every `query.edit_message_text` call raise (inside the
`try` such a failure is caught by the outer `except`, whose own edit
attempt is wrapped in `try ... except: pass`). -/
structure RatingEnv where
  callbackData : Option String
  answerExn : Option String
  appendOk : Bool
  editExn : Option String
deriving DecidableEq, Repr

/-- What a full `handle_rating` run reported. -/
inductive RatingRunReply where
  | replied (o : RatingOutcome)
  | exceptionHandled (msg : String)
deriving DecidableEq, Repr

/-- `handle_rating` (`src/main.py` lines 288-322) with its exception
flow: only `query.answer()` sits outside the `try`; the whole body —
including a failing `append_csv_row` or a failing edit — is caught by
the `except` whose own reporting edit is guarded by `try ... except:
pass`, so nothing after line 292 can propagate. -/
def handle_rating_run (env : RatingEnv) (s : BotState) :
    BotState × Except String RatingRunReply :=
  match env.answerExn with
  | some m => (s, Except.error m)
  | none =>
    let so := handle_rating env.appendOk env.callbackData s
    match env.editExn with
    | some m => (so.1, Except.ok (RatingRunReply.exceptionHandled m))
    | none => (so.1, Except.ok (RatingRunReply.replied so.2))

/-! ## The tracker/ledger rating invariant (spec §3) -/

/-- Is this rating present and in the 1-5 range? -/
def ratedInRange (r : Option Int) : Bool :=
  match r with
  | some n => decide (1 ≤ n) && decide (n ≤ 5)
  | none => false

/-- Spec §3 invariant: every record held in the pending tracker has no
rating, and every row written to the ledger has a rating in 1..5. -/
def TrackerLedgerInv (s : BotState) : Prop :=
  (∀ p ∈ s.pending, p.2.rating = none) ∧
  (∀ row ∈ s.ledger, ratedInRange row.rating = true)

/-! ## Sample values used to instantiate the theorems -/

/-- A concrete pending interaction record. -/
def sampleRecord : InteractionRecord :=
  { timestamp_utc := "2026-01-01T00:00:00+00:00"
    user_id := some 1
    chat_id := 42
    message_id := 7
    input_type := "text"
    user_text := "2+2=?"
    text_model := TEXT_MODEL
    vision_model := VISION_MODEL
    ai_answer := "4"
    rating := none }

/-- The empty startup state. -/
def emptyState : BotState := { pending := [], ledger := [] }

/-- A state with one outstanding answer awaiting its rating. -/
def sampleState : BotState := { pending := [("42:7", sampleRecord)], ledger := [] }

/-- A text-handler environment whose inference call raised the
transport-failure `OllamaError` and whose chat-platform calls all
succeed. -/
def transportFailEnv : TextEnv :=
  { messageText := some "2+2=?"
    sendActionExn := none
    ollamaResult := GenResult.ollamaErr
      { msg := "Ollama request failed: " ++ "timeout", cause := some "timeout" }
    replyAnswerExn := none
    replyRatePromptExn := none
    replyInExceptExn := none
    now := "2026-01-01T00:00:00+00:00"
    userId := some 1
    sentChatId := 42
    sentMessageId := 7 }

/-- A text-handler environment whose `send_action(action="typing")`
call — line 223, before the `try` — raises. -/
def sendActionFailEnv : TextEnv :=
  { messageText := some "2+2=?"
    sendActionExn := some "NetworkError: unreachable"
    ollamaResult := GenResult.success "4"
    replyAnswerExn := none
    replyRatePromptExn := none
    replyInExceptExn := none
    now := "2026-01-01T00:00:00+00:00"
    userId := some 1
    sentChatId := 42
    sentMessageId := 7 }

/-- A photo-handler environment where the download inside the `try`
fails but the reporting reply succeeds. -/
def samplePhotoEnv : PhotoEnv :=
  { hasPhoto := true
    caption := some "решить"
    sendActionExn := none
    getFileExn := some "TimedOut"
    ollamaResult := GenResult.success "ok"
    replyAnswerExn := none
    replyRatePromptExn := none
    replyInExceptExn := none
    now := "2026-01-01T00:00:00+00:00"
    userId := some 1
    sentChatId := 42
    sentMessageId := 8 }

/-- A rating-handler environment for a valid click on the sample
token. -/
def sampleRatingEnv : RatingEnv :=
  { callbackData := some "rate|42:7|5"
    answerExn := none
    appendOk := true
    editExn := none }

/-! ## Helper lemmas about the dictionary operations -/

theorem dictGet_dictSet_self (m : Pending) (k : String) (v : InteractionRecord) :
    dictGet (dictSet m k v) k = some v := by
  induction m with
  | nil => simp [dictSet, dictGet]
  | cons p rest ih =>
    obtain ⟨k', v'⟩ := p
    by_cases h : k' = k
    · simp [dictSet, dictGet, h]
    · simp [dictSet, dictGet, h, ih]

theorem dictGet_dictDel_self (m : Pending) (k : String) :
    dictGet (dictDel m k) k = none := by
  induction m with
  | nil => simp [dictDel, dictGet]
  | cons p rest ih =>
    obtain ⟨k', v'⟩ := p
    by_cases h : k' = k
    · simp [dictDel, h, ih]
    · simp [dictDel, dictGet, h, ih]

theorem dictGet_dictDel_none (m : Pending) (k t : String)
    (h : dictGet m t = none) : dictGet (dictDel m k) t = none := by
  induction m with
  | nil => simp [dictDel, dictGet]
  | cons p rest ih =>
    obtain ⟨k', v'⟩ := p
    simp only [dictGet] at h
    by_cases hk : k' = t
    · simp [hk] at h
    · simp only [dictGet, if_neg hk] at h
      by_cases hd : k' = k
      · simp [dictDel, hd, ih h]
      · simp [dictDel, dictGet, hd, hk, ih h]

theorem mem_dictSet (m : Pending) (k : String) (v : InteractionRecord)
    (p : String × InteractionRecord) (h : p ∈ dictSet m k v) :
    p = (k, v) ∨ p ∈ m := by
  induction m with
  | nil => simp [dictSet] at h; simp [h]
  | cons q rest ih =>
    obtain ⟨k', v'⟩ := q
    by_cases hk : k' = k
    · simp only [dictSet, if_pos hk, List.mem_cons] at h
      rcases h with h | h
      · exact Or.inl h
      · exact Or.inr (List.mem_cons_of_mem _ h)
    · simp only [dictSet, if_neg hk, List.mem_cons] at h
      rcases h with h | h
      · exact Or.inr (by simp [h])
      · rcases ih h with h' | h'
        · exact Or.inl h'
        · exact Or.inr (List.mem_cons_of_mem _ h')

theorem mem_dictDel (m : Pending) (k : String)
    (p : String × InteractionRecord) (h : p ∈ dictDel m k) : p ∈ m := by
  induction m with
  | nil => simp [dictDel] at h
  | cons q rest ih =>
    obtain ⟨k', v'⟩ := q
    by_cases hk : k' = k
    · simp only [dictDel, if_pos hk] at h
      exact List.mem_cons_of_mem _ (ih h)
    · simp only [dictDel, if_neg hk, List.mem_cons] at h
      rcases h with h | h
      · simp [h]
      · exact List.mem_cons_of_mem _ (ih h)

/-! ## Case characterisation of `handle_rating` -/

theorem handle_rating_cases (ok : Bool) (d : Option String) (s : BotState) :
    handle_rating ok d s = (s, RatingOutcome.malformed) ∨
    handle_rating ok d s = (s, RatingOutcome.invalidValue) ∨
    handle_rating ok d s = (s, RatingOutcome.notFound) ∨
    (∃ tok rs rec, pySplitPipe (d.getD "") = ["rate", tok, rs] ∧
      rs ∈ (["1", "2", "3", "4", "5"] : List String) ∧
      dictGet s.pending tok = some rec ∧
      ((ok = true ∧ handle_rating ok d s =
          ({ pending := dictDel s.pending tok
             ledger := s.ledger ++ [{ rec with rating := some (pyInt rs) }] },
           RatingOutcome.saved tok (pyInt rs))) ∨
       (ok = false ∧ handle_rating ok d s = (s, RatingOutcome.appendError tok)))) := by
  unfold handle_rating
  rcases hp : pySplitPipe (d.getD "") with _ | ⟨p0, _ | ⟨tok, _ | ⟨rs, _ | ⟨x, xs⟩⟩⟩⟩
  · exact Or.inl rfl
  · exact Or.inl rfl
  · exact Or.inl rfl
  · by_cases h0 : p0 = "rate"
    · subst h0
      by_cases hrs : rs ∈ (["1", "2", "3", "4", "5"] : List String)
      · rcases hg : dictGet s.pending tok with _ | rec
        · refine Or.inr (Or.inr (Or.inl ?_))
          simp [hrs, hg]
        · refine Or.inr (Or.inr (Or.inr ⟨tok, rs, rec, rfl, hrs, hg, ?_⟩))
          cases ok
          · exact Or.inr ⟨rfl, by simp [hrs, hg]⟩
          · exact Or.inl ⟨rfl, by simp [hrs, hg]⟩
      · refine Or.inr (Or.inl ?_)
        simp [hrs]
    · refine Or.inl ?_
      simp [h0]
  · exact Or.inl rfl

/-! ## One-shot consumption lemmas -/

theorem savedFor_imp_absent (ok : Bool) (d : Option String) (s : BotState) (t : String)
    (h : savedFor (handle_rating ok d s).2 t = true) :
    dictGet (handle_rating ok d s).1.pending t = none := by
  rcases handle_rating_cases ok d s with hc | hc | hc | ⟨tok, rs, rec, _, _, _, hc | hc⟩
  · rw [hc] at h ⊢; simp [savedFor] at h
  · rw [hc] at h ⊢; simp [savedFor] at h
  · rw [hc] at h ⊢; simp [savedFor] at h
  · rw [hc.2] at h ⊢
    simp only [savedFor, decide_eq_true_eq] at h
    subst h
    exact dictGet_dictDel_self _ _
  · rw [hc.2] at h ⊢; simp [savedFor] at h

theorem absent_step (ok : Bool) (d : Option String) (s : BotState) (t : String)
    (h : dictGet s.pending t = none) :
    savedFor (handle_rating ok d s).2 t = false ∧
    dictGet (handle_rating ok d s).1.pending t = none := by
  rcases handle_rating_cases ok d s with hc | hc | hc | ⟨tok, rs, rec, _, _, hg, hc | hc⟩
  · rw [hc]; exact ⟨rfl, h⟩
  · rw [hc]; exact ⟨rfl, h⟩
  · rw [hc]; exact ⟨rfl, h⟩
  · rw [hc.2]
    constructor
    · simp only [savedFor, decide_eq_false_iff_not]
      intro he
      subst he
      rw [h] at hg
      exact Option.noConfusion hg
    · exact dictGet_dictDel_none _ _ _ h
  · rw [hc.2]; exact ⟨rfl, h⟩

theorem absent_runCount (evs : List (Bool × Option String)) (s : BotState) (t : String)
    (h : dictGet s.pending t = none) : runCount evs s t = 0 := by
  induction evs generalizing s with
  | nil => rfl
  | cons ev rest ih =>
    obtain ⟨ok, d⟩ := ev
    obtain ⟨h1, h2⟩ := absent_step ok d s t h
    simp [runCount, h1, ih _ h2]

theorem runCount_le_one (evs : List (Bool × Option String)) (s : BotState) (t : String) :
    runCount evs s t ≤ 1 := by
  induction evs generalizing s with
  | nil => exact Nat.zero_le 1
  | cons ev rest ih =>
    obtain ⟨ok, d⟩ := ev
    by_cases h : savedFor (handle_rating ok d s).2 t = true
    · have habs := savedFor_imp_absent ok d s t h
      simp [runCount, h, absent_runCount rest _ t habs]
    · simp only [runCount, if_neg h, Nat.zero_add]
      exact ih _

/-! ## The two text-mode prompt shapes are never equal -/

theorem text_prompts_distinct (t : String) :
    SYSTEM_HINT ++ "\n\nПользователь ничего не написал. Попроси уточнить задачу." ≠
    SYSTEM_HINT ++ "\n\nЗапрос пользователя:\n" ++ t := by
  intro h
  have hd := congrArg String.data h
  rw [String.data_append, String.data_append, String.data_append] at hd
  rw [List.append_assoc] at hd
  have h2 := List.append_cancel_left hd
  have h3 : ("\n\nПользователь ничего не написал. Попроси уточнить задачу." : String).data[2]? =
      (("\n\nЗапрос пользователя:\n" : String).data ++ t.data)[2]? := by rw [h2]
  rw [List.getElem?_append_left (by decide)] at h3
  revert h3
  decide

/-! ## Claim theorems -/

/-- C8: `make_token` applied to (chat_id=42, message_id=7) returns
exactly the literal string `"42:7"`, and equal `(chat_id, message_id)`
inputs always yield equal tokens. -/
theorem make_token_deterministic :
    make_token 42 7 = "42:7" ∧
    ∀ (c₁ m₁ c₂ m₂ : Int), c₁ = c₂ → m₁ = m₂ → make_token c₁ m₁ = make_token c₂ m₂ := by
  refine ⟨rfl, ?_⟩
  intro c₁ m₁ c₂ m₂ hc hm
  rw [hc, hm]

/-- Witness for C8 at chat_id 42, message_id 7. -/
theorem make_token_deterministic_witness :
    make_token 42 7 = "42:7" ∧ make_token 42 7 = make_token 42 7 :=
  ⟨make_token_deterministic.1, make_token_deterministic.2 42 7 42 7 rfl rfl⟩

/-- C10: `build_prompt` is total over every mode string: every mode
different from the literal `"text"` produces the vision-mode prompt for
the given caption; only `mode = "text"` selects the text branch. -/
theorem build_prompt_mode_totality :
    ∀ (ut : Option String) (mode : String), mode ≠ "text" →
      build_prompt ut mode = build_prompt ut "vision" ∧
      build_prompt ut mode =
        (if pyStrip (ut.getD "") ≠ "" then
          SYSTEM_HINT ++ "\n\nПользователь прислал изображение и подпись:\n" ++ pyStrip (ut.getD "")
            ++ "\n\nСначала кратко опиши, что видишь на изображении, потом реши/объясни по запросу из подписи."
        else
          SYSTEM_HINT ++ "\n\nПользователь прислал изображение без подписи. 1) Опиши, что на изображении. 2) Предложи, какую учебную пользу можно из этого извлечь.") := by
  intro ut mode h
  constructor
  · simp [build_prompt, h]
  · simp only [build_prompt, if_neg h]

/-- Witness for C10 at mode `"photo"`. -/
theorem build_prompt_mode_totality_witness :
    build_prompt (some "hi") "photo" = build_prompt (some "hi") "vision" ∧
    build_prompt (some "hi") "photo" =
      (if pyStrip ((some "hi" : Option String).getD "") ≠ "" then
        SYSTEM_HINT ++ "\n\nПользователь прислал изображение и подпись:\n"
          ++ pyStrip ((some "hi" : Option String).getD "")
          ++ "\n\nСначала кратко опиши, что видишь на изображении, потом реши/объясни по запросу из подписи."
      else
        SYSTEM_HINT ++ "\n\nПользователь прислал изображение без подписи. 1) Опиши, что на изображении. 2) Предложи, какую учебную пользу можно из этого извлечь.") :=
  build_prompt_mode_totality (some "hi") "photo" (by decide)

/-- C1: inserting a record and then taking the same token returns the
exact record inserted, a second take on the same token returns "not
found", and over any trace of rating callbacks at most one ledger
append ever occurs per token. -/
theorem insert_take_once_single_append :
    (∀ (m : Pending) (token : String) (r : InteractionRecord),
      take (dictSet m token r) token = (some r, dictDel (dictSet m token r) token)) ∧
    (∀ (m : Pending) (token : String) (r : InteractionRecord),
      take (take (dictSet m token r) token).2 token = (none, (take (dictSet m token r) token).2)) ∧
    (∀ (evs : List (Bool × Option String)) (s : BotState) (t : String),
      runCount evs s t ≤ 1) := by
  refine ⟨?_, ?_, runCount_le_one⟩
  · intro m token r
    simp [take, dictGet_dictSet_self]
  · intro m token r
    simp [take, dictGet_dictSet_self, dictGet_dictDel_self]

/-- C4: a malformed rating callback (wrong field count or wrong prefix)
is rejected without mutating the tracker and its outcome never depends
on the tracker state (no token lookup); a well-formed callback whose
rating value is not one of the literal strings `"1"`..`"5"` is rejected
with the state left exactly as it was. -/
theorem rating_rejects_leave_tracker_unchanged :
    (∀ (ok : Bool) (d : Option String) (s : BotState),
      malformedCallback d = true → handle_rating ok d s = (s, RatingOutcome.malformed)) ∧
    (∀ (ok : Bool) (d : Option String) (s₁ s₂ : BotState),
      malformedCallback d = true → (handle_rating ok d s₁).2 = (handle_rating ok d s₂).2) ∧
    (∀ (ok : Bool) (d : Option String) (s : BotState) (tok rs : String),
      pySplitPipe (d.getD "") = ["rate", tok, rs] →
      rs ∉ (["1", "2", "3", "4", "5"] : List String) →
      handle_rating ok d s = (s, RatingOutcome.invalidValue)) := by
  have hmal : ∀ (ok : Bool) (d : Option String) (s : BotState),
      malformedCallback d = true → handle_rating ok d s = (s, RatingOutcome.malformed) := by
    intro ok d s hm
    unfold malformedCallback at hm
    unfold handle_rating
    rcases hp : pySplitPipe (d.getD "") with _ | ⟨p0, _ | ⟨tok, _ | ⟨rs, _ | ⟨x, xs⟩⟩⟩⟩
    · rfl
    · rfl
    · rfl
    · rw [hp] at hm
      simp only [decide_eq_true_eq] at hm
      simp [hm]
    · rfl
  refine ⟨hmal, ?_, ?_⟩
  · intro ok d s₁ s₂ hm
    rw [hmal ok d s₁ hm, hmal ok d s₂ hm]
  · intro ok d s tok rs hp hrs
    unfold handle_rating
    rw [hp]
    simp [hrs]

/-- Witness for C4: the out-of-range rating `"0"`, a two-field payload
and a wrong-prefix payload are all rejected with the tracker unchanged. -/
theorem rating_rejects_leave_tracker_unchanged_witness :
    handle_rating true (some "rate|42:7|0") sampleState = (sampleState, RatingOutcome.invalidValue) ∧
    handle_rating true (some "rate|42:7") sampleState = (sampleState, RatingOutcome.malformed) ∧
    (handle_rating true (some "vote|42:7|3") sampleState).2 =
      (handle_rating true (some "vote|42:7|3") emptyState).2 :=
  ⟨rating_rejects_leave_tracker_unchanged.2.2 true (some "rate|42:7|0") sampleState
      "42:7" "0" (by decide) (by decide),
   rating_rejects_leave_tracker_unchanged.1 true (some "rate|42:7") sampleState (by decide),
   rating_rejects_leave_tracker_unchanged.2.1 true (some "vote|42:7|3") sampleState emptyState
      (by decide)⟩

/-- C9: in the rating handler the ledger append (line 312) precedes the
`del pending[token]` (line 314): when the append raises, the whole state
— the tracker in particular — is left unchanged, the token's record is
still present, and a later click on the same token with a working ledger
succeeds and appends exactly that record with the rating set. -/
theorem append_before_delete_retry_possible :
    (∀ (d : Option String) (s : BotState), (handle_rating false d s).1 = s) ∧
    (∀ (d : Option String) (s : BotState) (tok rs : String) (rec : InteractionRecord),
      pySplitPipe (d.getD "") = ["rate", tok, rs] →
      rs ∈ (["1", "2", "3", "4", "5"] : List String) →
      dictGet s.pending tok = some rec →
      handle_rating false d s = (s, RatingOutcome.appendError tok) ∧
      dictGet (handle_rating false d s).1.pending tok = some rec ∧
      handle_rating true d s =
        ({ pending := dictDel s.pending tok
           ledger := s.ledger ++ [{ rec with rating := some (pyInt rs) }] },
         RatingOutcome.saved tok (pyInt rs))) := by
  have hfixed : ∀ (d : Option String) (s : BotState), (handle_rating false d s).1 = s := by
    intro d s
    rcases handle_rating_cases false d s with hc | hc | hc | ⟨tok, rs, rec, _, _, _, hc | hc⟩
    · rw [hc]
    · rw [hc]
    · rw [hc]
    · exact absurd hc.1 (by simp)
    · rw [hc.2]
  refine ⟨hfixed, ?_⟩
  intro d s tok rs rec hp hrs hg
  have h1 : handle_rating false d s = (s, RatingOutcome.appendError tok) := by
    unfold handle_rating
    rw [hp]
    simp [hrs, hg]
  have h2 : handle_rating true d s =
      ({ pending := dictDel s.pending tok
         ledger := s.ledger ++ [{ rec with rating := some (pyInt rs) }] },
       RatingOutcome.saved tok (pyInt rs)) := by
    unfold handle_rating
    rw [hp]
    simp [hrs, hg]
  exact ⟨h1, by rw [h1]; exact hg, h2⟩

/-- Witness for C9: a click on the sample token with a failing ledger
leaves the record in the tracker; the retry consumes it. -/
theorem append_before_delete_retry_possible_witness :
    handle_rating false (some "rate|42:7|5") sampleState = (sampleState, RatingOutcome.appendError "42:7") ∧
    dictGet (handle_rating false (some "rate|42:7|5") sampleState).1.pending "42:7" = some sampleRecord ∧
    handle_rating true (some "rate|42:7|5") sampleState =
      ({ pending := dictDel sampleState.pending "42:7"
         ledger := sampleState.ledger ++ [{ sampleRecord with rating := some (pyInt "5") }] },
       RatingOutcome.saved "42:7" (pyInt "5")) :=
  append_before_delete_retry_possible.2 (some "rate|42:7|5") sampleState "42:7" "5" sampleRecord
    (by decide) (by decide) (by decide)

/-- C2: the inference client's failures fall into exactly two
distinguishable kinds: a transport failure raises the error carrying the
underlying cause (`BackendUnavailable` in the spec's taxonomy), a
non-success HTTP status raises the error carrying the status code and
the parseable error payload in its message (`BackendError`), and from
the raised error alone `classifyFailure` tells which of the two cases
occurred. -/
theorem ollama_failure_classification :
    (∀ cause : String,
      ollama_generate (HttpResult.transportError cause) =
        Except.error { msg := "Ollama request failed: " ++ cause, cause := some cause } ∧
      classifyFailure { msg := "Ollama request failed: " ++ cause, cause := some cause } =
        FailureKind.backendUnavailable) ∧
    (∀ r : HttpResponse, r.status ≠ 200 →
      ollama_generate (HttpResult.response r) =
        Except.error
          { msg := "Ollama HTTP " ++ toString r.status ++ ": " ++ r.jsonBody.getD r.text,
            cause := none } ∧
      classifyFailure
          { msg := "Ollama HTTP " ++ toString r.status ++ ": " ++ r.jsonBody.getD r.text,
            cause := none } = FailureKind.backendError) ∧
    (∀ (res : HttpResult) (e : OllamaError), ollama_generate res = Except.error e →
      (classifyFailure e = FailureKind.backendUnavailable ↔
        ∃ cause, res = HttpResult.transportError cause) ∧
      (classifyFailure e = FailureKind.backendError ↔
        ∃ r, res = HttpResult.response r ∧ r.status ≠ 200)) := by
  refine ⟨fun cause => ⟨rfl, rfl⟩, fun r h => ⟨by simp [ollama_generate, h], rfl⟩, ?_⟩
  intro res e h
  cases res with
  | transportError cause =>
    simp only [ollama_generate, Except.error.injEq] at h
    subst h
    constructor
    · exact ⟨fun _ => ⟨cause, rfl⟩, fun _ => rfl⟩
    · constructor
      · intro hcl
        exact absurd hcl (by simp [classifyFailure])
      · rintro ⟨r, hr, _⟩
        exact HttpResult.noConfusion hr
  | response r =>
    by_cases hs : r.status = 200
    · simp [ollama_generate, hs] at h
    · simp only [ollama_generate, if_pos hs, ne_eq, hs, not_false_eq_true, if_true,
        Except.error.injEq] at h
      subst h
      constructor
      · constructor
        · intro hcl
          exact absurd hcl (by simp [classifyFailure])
        · rintro ⟨cause, hc⟩
          exact HttpResult.noConfusion hc
      · exact ⟨fun _ => ⟨r, rfl, hs⟩, fun _ => rfl⟩

/-- Witness for C2 at a timeout and at an HTTP 500 with a JSON error
body. -/
theorem ollama_failure_classification_witness :
    (ollama_generate (HttpResult.transportError "timeout") =
      Except.error { msg := "Ollama request failed: " ++ "timeout", cause := some "timeout" } ∧
     classifyFailure { msg := "Ollama request failed: " ++ "timeout", cause := some "timeout" } =
      FailureKind.backendUnavailable) ∧
    (ollama_generate (HttpResult.response ⟨500, some "model not found", "raw body", none⟩) =
      Except.error { msg := "Ollama HTTP 500: model not found", cause := none } ∧
     classifyFailure { msg := "Ollama HTTP 500: model not found", cause := none } =
      FailureKind.backendError) ∧
    (classifyFailure { msg := "Ollama request failed: " ++ "timeout", cause := some "timeout" } =
        FailureKind.backendUnavailable ↔
      ∃ cause, HttpResult.transportError "timeout" = HttpResult.transportError cause) := by
  refine ⟨ollama_failure_classification.1 "timeout", ?_, ?_⟩
  · have h := ollama_failure_classification.2.1 ⟨500, some "model not found", "raw body", none⟩
      (by decide)
    simpa using h
  · exact (ollama_failure_classification.2.2 (HttpResult.transportError "timeout")
      { msg := "Ollama request failed: " ++ "timeout", cause := some "timeout" }
      (ollama_failure_classification.1 "timeout").1).1

/-- C3: the rating field is absent for every record held in the pending
tracker and present with a value in 1..5 for every row written to the
ledger, and this invariant is preserved by every insert
(`send_answer_with_rating`) and every rating-handler invocation. -/
theorem tracker_ledger_rating_invariant :
    ∀ s : BotState, TrackerLedgerInv s →
      (∀ (now : String) (uid : Option Int) (cid mid : Int) (itype utext ans : String),
        TrackerLedgerInv (send_answer_with_rating now uid cid mid itype utext ans s).1) ∧
      (∀ (ok : Bool) (d : Option String), TrackerLedgerInv (handle_rating ok d s).1) := by
  intro s hinv
  obtain ⟨hp, hl⟩ := hinv
  constructor
  · intro now uid cid mid itype utext ans
    constructor
    · intro p hmem
      rcases mem_dictSet _ _ _ _ hmem with h | h
      · rw [h]
      · exact hp p h
    · exact hl
  · intro ok d
    rcases handle_rating_cases ok d s with hc | hc | hc | ⟨tok, rs, rec, _, hrs, hg, hc | hc⟩
    · rw [hc]; exact ⟨hp, hl⟩
    · rw [hc]; exact ⟨hp, hl⟩
    · rw [hc]; exact ⟨hp, hl⟩
    · rw [hc.2]
      constructor
      · intro p hmem
        exact hp p (mem_dictDel _ _ _ hmem)
      · intro row hmem
        rcases List.mem_append.mp hmem with h | h
        · exact hl row h
        · rw [List.mem_singleton.mp h]
          simp only [List.mem_cons, List.mem_singleton, List.not_mem_nil, or_false] at hrs
          rcases hrs with rfl | rfl | rfl | rfl | rfl <;> rfl
    · rw [hc.2]; exact ⟨hp, hl⟩

/-- Witness for C3: the invariant holds after inserting a fresh answer
into the empty state and after saving a valid rating from the sample
state. -/
theorem tracker_ledger_rating_invariant_witness :
    TrackerLedgerInv
      (send_answer_with_rating "2026-01-01T00:00:00+00:00" (some 1) 42 7 "text" "2+2=?" "4"
        emptyState).1 ∧
    TrackerLedgerInv (handle_rating true (some "rate|42:7|5") sampleState).1 := by
  constructor
  · exact (tracker_ledger_rating_invariant emptyState
      ⟨fun p hp => absurd hp (List.not_mem_nil p),
       fun row hr => absurd hr (List.not_mem_nil row)⟩).1
      "2026-01-01T00:00:00+00:00" (some 1) 42 7 "text" "2+2=?" "4"
  · exact (tracker_ledger_rating_invariant sampleState
      ⟨fun p hp => by rw [List.mem_singleton.mp hp]; rfl,
       fun row hr => absurd hr (List.not_mem_nil row)⟩).2
      true (some "rate|42:7|5")

set_option maxRecDepth 8192 in
/-- C7: for every input whose stripped form is non-empty, the text-mode
prompt contains the stripped input verbatim as a substring; for every
empty or whitespace-only input, the output differs from every
non-empty-case output and contains the clarification request. -/
theorem build_prompt_text_mode_spec :
    (∀ ut : String, pyStrip ut ≠ "" →
      ∃ pre suf, build_prompt (some ut) "text" = pre ++ pyStrip ut ++ suf) ∧
    (∀ ut utNE : String, pyStrip ut = "" → pyStrip utNE ≠ "" →
      build_prompt (some ut) "text" ≠ build_prompt (some utNE) "text") ∧
    (∀ ut : String, pyStrip ut = "" →
      ∃ pre suf, build_prompt (some ut) "text" = pre ++ "Попроси уточнить задачу" ++ suf) := by
  have hne : ∀ ut : String, pyStrip ut ≠ "" →
      build_prompt (some ut) "text" = SYSTEM_HINT ++ "\n\nЗапрос пользователя:\n" ++ pyStrip ut := by
    intro ut h
    simp [build_prompt, h]
  have hem : ∀ ut : String, pyStrip ut = "" →
      build_prompt (some ut) "text" =
        SYSTEM_HINT ++ "\n\nПользователь ничего не написал. Попроси уточнить задачу." := by
    intro ut h
    simp [build_prompt, h]
  refine ⟨?_, ?_, ?_⟩
  · intro ut h
    exact ⟨SYSTEM_HINT ++ "\n\nЗапрос пользователя:\n", "",
      by rw [hne ut h, String.append_empty]⟩
  · intro ut utNE h hNE
    rw [hne utNE hNE, hem ut h]
    exact text_prompts_distinct (pyStrip utNE)
  · intro ut h
    refine ⟨SYSTEM_HINT ++ "\n\nПользователь ничего не написал. ", ".", ?_⟩
    rw [hem ut h]
    decide

/-- Witness for C7 at the inputs `" 2+2=? "` and `"  "`. -/
theorem build_prompt_text_mode_spec_witness :
    (∃ pre suf, build_prompt (some " 2+2=? ") "text" = pre ++ pyStrip " 2+2=? " ++ suf) ∧
    build_prompt (some "  ") "text" ≠ build_prompt (some " 2+2=? ") "text" ∧
    (∃ pre suf, build_prompt (some "  ") "text" = pre ++ "Попроси уточнить задачу" ++ suf) :=
  ⟨build_prompt_text_mode_spec.1 " 2+2=? " (by decide),
   build_prompt_text_mode_spec.2.1 "  " " 2+2=? " (by decide) (by decide),
   build_prompt_text_mode_spec.2.2 "  " (by decide)⟩

/-- C6: when the inference call of `handle_text` raised the
transport-failure error, the user receives the backend-unavailable-shaped
reply embedding that error's message, and the state — tracker and ledger
both — is exactly the state from before the request. -/
theorem transport_failure_leaves_state_unchanged :
    ∀ (env : TextEnv) (s : BotState) (cause : String) (e : OllamaError),
      ollama_generate (HttpResult.transportError cause) = Except.error e →
      env.ollamaResult = GenResult.ollamaErr e →
      env.sendActionExn = none →
      env.replyInExceptExn = none →
      classifyFailure e = FailureKind.backendUnavailable ∧
      handle_text env s =
        (s, Except.ok (TextReply.errorReply
          ("Ошибка при обращении к локальной модели (Ollama).\n" ++ e.msg
            ++ "\n\nПроверь, что Ollama запущена и модель скачана."))) := by
  intro env s cause e h1 h2 h3 h4
  have he : e = { msg := "Ollama request failed: " ++ cause, cause := some cause } := by
    simp only [ollama_generate, Except.error.injEq] at h1
    exact h1.symm
  constructor
  · rw [he]; rfl
  · unfold handle_text
    rw [h2, h3, h4]

/-- Witness for C6 in the transport-failure environment over the empty
state. -/
theorem transport_failure_leaves_state_unchanged_witness :
    classifyFailure { msg := "Ollama request failed: " ++ "timeout", cause := some "timeout" } =
      FailureKind.backendUnavailable ∧
    handle_text transportFailEnv emptyState =
      (emptyState, Except.ok (TextReply.errorReply
        ("Ошибка при обращении к локальной модели (Ollama).\n"
          ++ ("Ollama request failed: " ++ "timeout")
          ++ "\n\nПроверь, что Ollama запущена и модель скачана."))) :=
  transport_failure_leaves_state_unchanged transportFailEnv emptyState "timeout"
    { msg := "Ollama request failed: " ++ "timeout", cause := some "timeout" } rfl rfl rfl rfl

/-- C5 counterexample: an unexpected failure raised while `handle_text`
processes a message — the typing-action call on line 223, which sits
before the `try` — propagates out of the handler body instead of being
caught, logged and reported. -/
theorem handler_exception_propagates_counterexample :
    (handle_text sendActionFailEnv emptyState).2 = Except.error "NetworkError: unreachable" :=
  rfl

/-- C5 amended: every unexpected failure raised inside a handler's
`try` block is caught at that handler's boundary and reported, and
nothing raised there propagates — provided the statements before the
`try` (reading the message fields, the typing-action call, answering
the callback query) and, for `handle_text`/`handle_photo`, the
error-reporting reply inside the `except` blocks do not themselves
raise.  For `handle_rating` even the error report is guarded, so only
the `query.answer()` before the `try` can propagate. -/
theorem handler_try_block_failures_caught :
    (∀ (env : TextEnv) (s : BotState),
      env.sendActionExn = none → env.replyInExceptExn = none →
      ∃ r, (handle_text env s).2 = Except.ok r) ∧
    (∀ (env : PhotoEnv) (s : BotState),
      env.hasPhoto = true → env.sendActionExn = none → env.replyInExceptExn = none →
      ∃ r, (handle_photo env s).2 = Except.ok r) ∧
    (∀ (env : RatingEnv) (s : BotState),
      env.answerExn = none →
      ∃ r, (handle_rating_run env s).2 = Except.ok r) := by
  refine ⟨?_, ?_, ?_⟩
  · intro env s h1 h2
    obtain ⟨mt, sae, ollr, rae, rpe, rie, now, uid, cid, mid⟩ := env
    simp only at h1 h2
    subst h1
    subst h2
    cases ollr with
    | success a =>
      cases rae with
      | some m => exact ⟨_, rfl⟩
      | none =>
        cases rpe with
        | some m => exact ⟨_, rfl⟩
        | none => exact ⟨_, rfl⟩
    | ollamaErr e => exact ⟨_, rfl⟩
    | otherErr m => exact ⟨_, rfl⟩
  · intro env s h0 h1 h2
    obtain ⟨hp, cap, sae, gfe, ollr, rae, rpe, rie, now, uid, cid, mid⟩ := env
    simp only at h0 h1 h2
    subst h0
    subst h1
    subst h2
    cases gfe with
    | some m => exact ⟨_, rfl⟩
    | none =>
      cases ollr with
      | success a =>
        cases rae with
        | some m => exact ⟨_, rfl⟩
        | none =>
          cases rpe with
          | some m => exact ⟨_, rfl⟩
          | none => exact ⟨_, rfl⟩
      | ollamaErr e => exact ⟨_, rfl⟩
      | otherErr m => exact ⟨_, rfl⟩
  · intro env s h1
    obtain ⟨cd, ae, apo, ede⟩ := env
    simp only at h1
    subst h1
    cases ede with
    | some m => exact ⟨_, rfl⟩
    | none => exact ⟨_, rfl⟩

/-- Witness for the amended C5 in three concrete environments. -/
theorem handler_try_block_failures_caught_witness :
    (∃ r, (handle_text transportFailEnv sampleState).2 = Except.ok r) ∧
    (∃ r, (handle_photo samplePhotoEnv emptyState).2 = Except.ok r) ∧
    (∃ r, (handle_rating_run sampleRatingEnv sampleState).2 = Except.ok r) :=
  ⟨handler_try_block_failures_caught.1 transportFailEnv sampleState rfl rfl,
   handler_try_block_failures_caught.2.1 samplePhotoEnv emptyState rfl rfl rfl,
   handler_try_block_failures_caught.2.2 sampleRatingEnv sampleState rfl⟩
